import Mathlib

/-!
Shallow embedding of the JSON-RPC client/server engine found in
`src/js/json-rpc.js` (class `JsonRPC`), together with theorems checking the
specification's claims about it.

Conventions of the embedding:
* JavaScript values appearing in frames are modelled by `JVal`; the absence of
  an object field is modelled by `Option` (`none` = the field is absent or set
  to JS `undefined`/`null` where the source only ever tests `!= null`, see the
  individual definitions).
* The mutable fields of a `JsonRPC` instance (`id_counter`, `methods`,
  `pending_callbacks`, `transport`) become the record `RPCState`; each method
  of the class becomes a function from the old state to the new state plus its
  observable effects (frames handed to `transport.send`, `console.log` events,
  and invocations of pending-callback closures).
* Promise settlement is modelled by recording each invocation of a registered
  pending callback as a `Settlement`; `promiseAll` reproduces the semantics of
  `Promise.all` over such a record (first rejection in delivery order wins,
  resolution only once every constituent promise has resolved).
-/

/-- JSON-compatible runtime values carried in frames. -/
inductive JVal where
  | jnull
  | jbool (b : Bool)
  | jnum (n : Int)
  | jstr (s : String)
  | jarr (xs : List JVal)
  | jobj (kvs : List (String × JVal))

/-- Decimal digits of a natural number, least significant first, with explicit
fuel so that the definition is structurally recursive (fuel `n` is always
enough since a number is at least as large as its digit count). -/
def digitsRevAux (fuel n : Nat) : List Nat :=
  match fuel with
  | 0 => []
  | fuel + 1 => if n = 0 then [] else (n % 10) :: digitsRevAux fuel (n / 10)

/-- The character for a decimal digit. -/
def digitChar (d : Nat) : Char := Char.ofNat (48 + d)

/-- JavaScript `Number.prototype.toString()` for a non-negative integer:
decimal rendering, `"0"` for zero.  This is what `_create_uid` returns. -/
def natToStr (n : Nat) : String :=
  if n = 0 then "0" else String.mk (((digitsRevAux n n).reverse).map digitChar)

/-- Reading a decimal string back as an integer ("rendered as an integer" in
the specification's wording). -/
def strToNat (s : String) : Nat :=
  s.data.foldl (fun a c => a * 10 + (c.toNat - 48)) 0

/-- Value of a least-significant-first digit list. -/
def valRev : List Nat → Nat
  | [] => 0
  | d :: ds => d + 10 * valRev ds

/-- Rendering of an integer, used for JS property-key coercion of numbers. -/
def intToStr (n : Int) : String :=
  if n < 0 then "-" ++ natToStr n.natAbs else natToStr n.toNat

/-- JavaScript property-key coercion (`obj[k]`) of a frame value, as used by
`this.pending_callbacks[uid]` and `this.methods[request.method]`.  Identifiers
produced by the engine are always strings, so only the string case is ever hit
by the engine's own traffic; a JS array would stringify by joining its
elements, which no claim exercises, so it is rendered here as the join of no
elements. -/
def jvalKey : JVal → String
  | .jnull => "null"
  | .jbool b => if b then "true" else "false"
  | .jnum n => intToStr n
  | .jstr s => s
  | .jarr _ => ""
  | .jobj _ => "[object Object]"

/-- Property-key coercion of a possibly absent field (JS `undefined` keys as
the string "undefined"). -/
def jvalKeyOpt : Option JVal → String
  | none => "undefined"
  | some v => jvalKey v

/-- The JavaScript test `x != null` (loose inequality) on a possibly absent
object field: false exactly for an absent field and for a present `null`. -/
def optNonNull : Option JVal → Bool
  | none => false
  | some .jnull => false
  | some _ => true

/-- The JavaScript loose equality `x == s` of a possibly absent field against
a string literal, as in `rpc_data.jsonrpc != "2.0"` and
`request.type == "request"`.  JS loose equality would additionally admit
numeric coercions, which no frame in this development exercises; the engine's
own frames always carry these fields as strings. -/
def looseEqStr (v : Option JVal) (s : String) : Bool :=
  match v with
  | some (.jstr t) => t = s
  | _ => false

/-- An exception value as observed by the `catch (error)` block of
`_handle_request`: `message` is `none` when the thrown value has no `message`
property. -/
structure JSException where
  message : Option String

/-- The calling convention selected by `_handle_request` from the shape of
`request.params`. -/
inductive CallArgs where
  | positional (args : List JVal)
  | keyword (obj : JVal)
  | noArgs

/-- A registered method: a callable that either returns a value or throws. -/
def MethodImpl := CallArgs → Except JSException JVal

/-- What a pending callback closure does when invoked, determined by which
call created it: `call_method`/`call_method_with_kwargs` settle a bare
promise; `send_batch_request` settles a per-item promise that wraps the
payload with the item's method name and original array index. -/
inductive Completion where
  | simple (uid : String)
  | batchItem (method : String) (index : Nat)

/-- Mutable state of one `JsonRPC` instance.  `transport` is `true` once
`register_transport` has been called (`this.transport != null`). -/
structure RPCState where
  id_counter : Nat
  methods : List (String × MethodImpl)
  pending_callbacks : List (String × Completion)
  transport : Bool

/-- A freshly constructed engine (`new JsonRPC()`), with `tr` telling whether
a transport has been registered. -/
def initState (tr : Bool) : RPCState :=
  { id_counter := 0, methods := [], pending_callbacks := [], transport := tr }

/-- Association-list lookup for the JS object maps of the engine. -/
def getKey {α : Type} : List (String × α) → String → Option α
  | [], _ => none
  | p :: ps, k => if p.1 = k then some p.2 else getKey ps k

/-- JS `delete obj[k]`. -/
def delKey {α : Type} (ps : List (String × α)) (k : String) : List (String × α) :=
  ps.filter (fun p => p.1 ≠ k)

/-- JS `obj[k] = v` (overwrites any previous binding). -/
def setKey {α : Type} (ps : List (String × α)) (k : String) (v : α) :
    List (String × α) :=
  (k, v) :: delKey ps k

/-- An outbound request frame as built by `_build_request`: `id` and `params`
are `none` when the corresponding field is omitted from the frame. -/
structure RequestFrame where
  method : String
  id : Option String
  params : Option JVal

/-- `_build_request(method_name, uid, kwargs, ...args)`: the `id` field is set
only when `uid != null`, `params` is set to `kwargs` when `kwargs != null`,
else to the positional argument array when it is non-empty, else omitted. -/
def build_request (method_name : String) (uid : Option String)
    (kwargs : Option JVal) (args : List JVal) : RequestFrame :=
  { method := method_name
    id := uid
    params :=
      match kwargs with
      | some k => some k
      | none => if args.length > 0 then some (.jarr args) else none }

/-- Everything the engine hands to `transport.send`, as structured data:
single request frames, batch arrays, success responses
`(jsonrpc, result, id)` and error responses
`(jsonrpc, error.message, error.code, id)`. -/
inductive OutFrame where
  | request (r : RequestFrame)
  | batch (rs : List RequestFrame)
  | result (res : JVal) (id : JVal)
  | error (message : String) (code : Int) (id : JVal)

/-- The distinct `console.log` events of the engine. -/
inductive LogEvent where
  | invalidData
  | invalidMethod (name : String)
  | requestError (code : Int) (message : String)
  | noRegisteredCall
  | errorReceived
  | invalidResponse

/-- `_build_error(message, code, request)`: an error frame whose `id` is the
inbound request's `id` when that field is present, else `null`; building the
frame also logs the error. -/
def build_error (message : String) (code : Int) (req_id : Option JVal) : OutFrame :=
  .error message code (req_id.getD .jnull)

/-- How one invocation of a pending callback settles its promise. -/
inductive Outcome where
  | resolved (v : JVal)
  | rejected (v : JVal)

/-- One recorded invocation of a pending callback. -/
structure Settlement where
  uid : String
  outcome : Outcome

/-- Invoking a pending callback closure with arguments `(result, error)`.
`_handle_response` passes `(response.result)` on the success path and
`(null, response.error)` on the error path.  A `simple` closure resolves or
rejects with the bare payload; a `batchItem` closure wraps it with the item's
method and index, mirroring the closure built in `send_batch_request`. -/
def invokeCompletion (c : Completion) (result : JVal) (error : Option JVal) :
    Outcome :=
  match c, error with
  | _, some e =>
      match c with
      | .simple _ => .rejected e
      | .batchItem m i =>
          .rejected (.jobj [("method", .jstr m), ("index", .jnum i), ("error", e)])
  | _, none =>
      match c with
      | .simple _ => .resolved result
      | .batchItem m i =>
          .resolved (.jobj [("method", .jstr m), ("index", .jnum i), ("result", result)])

/-- Observable effects of processing inbound data: frames sent, log lines, and
pending-callback invocations, each in program order. -/
structure Effects where
  sends : List OutFrame
  logs : List LogEvent
  settlements : List Settlement

/-- No effects. -/
def noEffects : Effects := { sends := [], logs := [], settlements := [] }

/-- Sequencing of effects. -/
def Effects.app (a b : Effects) : Effects :=
  { sends := a.sends ++ b.sends
    logs := a.logs ++ b.logs
    settlements := a.settlements ++ b.settlements }

/-- An inbound frame after JSON decoding: each JSON-RPC field is either absent
(`none`) or present with a value (`some v`, where `v` may be `jnull`). -/
structure InFrame where
  jsonrpc : Option JVal
  result : Option JVal
  error : Option JVal
  method : Option JVal
  id : Option JVal
  params : Option JVal

/-- `_handle_response(response)`: the success branch runs when
`response.result != null && response.id != null`; otherwise the error branch
runs when `response.error != null`; otherwise the frame is logged as an
invalid response.  In the two live branches the pending callback for
`response.id` is invoked and deleted when present, else the event is only
logged. -/
def handle_response (s : RPCState) (f : InFrame) : RPCState × Effects :=
  if optNonNull f.result && optNonNull f.id then
    let uid := jvalKeyOpt f.id
    match getKey s.pending_callbacks uid with
    | some c =>
        ({ s with pending_callbacks := delKey s.pending_callbacks uid },
         { sends := [], logs := [],
           settlements := [⟨uid, invokeCompletion c (f.result.getD .jnull) none⟩] })
    | none =>
        (s, { sends := [], logs := [.noRegisteredCall], settlements := [] })
  else if optNonNull f.error then
    let uid := jvalKeyOpt f.id
    match getKey s.pending_callbacks uid with
    | some c =>
        ({ s with pending_callbacks := delKey s.pending_callbacks uid },
         { sends := [], logs := [],
           settlements := [⟨uid, invokeCompletion c .jnull (some (f.error.getD .jnull))⟩] })
    | none =>
        (s, { sends := [], logs := [.errorReceived], settlements := [] })
  else
    (s, { sends := [], logs := [.invalidResponse], settlements := [] })

/-- The parameter-shape dispatch of `_handle_request`: an array of params is
spread as positional arguments, a (non-array) object is passed as a single
argument, no `params` field means a zero-argument call, and any other shape is
an invalid-parameters condition (`none`), in which case the callable is never
invoked.  (In JS an array is also `instanceof Object`, but the `Array` test
comes first.) -/
def dispatchCall (impl : MethodImpl) (params : Option JVal) :
    Option (Except JSException JVal) :=
  match params with
  | some (.jarr xs) => some (impl (.positional xs))
  | some (.jobj kvs) => some (impl (.keyword (.jobj kvs)))
  | some _ => none
  | none => some (impl .noArgs)

/-- The message selected by the `catch` block of `_handle_request`:
the thrown value's message when present and non-empty, else "Server Error". -/
def serverMsg (ex : JSException) : String :=
  match ex.message with
  | some m => if m = "" then "Server Error" else m
  | none => "Server Error"

/-- `_handle_request(request)`: an unregistered method is logged and ignored;
an invalid parameter shape produces an InvalidParams (-32602) error frame; a
throwing callable produces a ServerError (-31000) error frame; a successful
call produces a result frame only when the request carries an `id`.  Whatever
response was produced is sent only when a transport is bound.  The engine
state is never modified by this path. -/
def handle_request (s : RPCState) (f : InFrame) : RPCState × Effects :=
  let name := jvalKeyOpt f.method
  match getKey s.methods name with
  | none => (s, { sends := [], logs := [.invalidMethod name], settlements := [] })
  | some impl =>
      match dispatchCall impl f.params with
      | none =>
          let fr := build_error "Invalid Parameters" (-32602) f.id
          (s, { sends := if s.transport then [fr] else []
                logs := [.requestError (-32602) "Invalid Parameters"]
                settlements := [] })
      | some (.error ex) =>
          let fr := build_error (serverMsg ex) (-31000) f.id
          (s, { sends := if s.transport then [fr] else []
                logs := [.requestError (-31000) (serverMsg ex)]
                settlements := [] })
      | some (.ok ret) =>
          match f.id with
          | some idv =>
              (s, { sends := if s.transport then [.result ret idv] else []
                    logs := [], settlements := [] })
          | none => (s, { sends := [], logs := [], settlements := [] })

/-- `_validate_and_dispatch(rpc_data)`: a frame whose `jsonrpc` tag is not
"2.0" is logged and dropped; otherwise presence of a `result` or `error` field
classifies it as a response, else presence of `method` as a request or
notification, else it is logged and dropped. -/
def validate_and_dispatch (s : RPCState) (f : InFrame) : RPCState × Effects :=
  if looseEqStr f.jsonrpc "2.0" = false then
    (s, { sends := [], logs := [.invalidData], settlements := [] })
  else if f.result.isSome || f.error.isSome then
    handle_response s f
  else if f.method.isSome then
    handle_request s f
  else
    (s, { sends := [], logs := [.invalidData], settlements := [] })

/-- Processing a list of decoded frames in order, as `process_received` does
for the elements of a batch array, or for successive receive events. -/
def processList : RPCState → List InFrame → RPCState × Effects
  | s, [] => (s, noEffects)
  | s, f :: fs =>
      let r := validate_and_dispatch s f
      let rest := processList r.1 fs
      (rest.1, r.2.app rest.2)

/-- Decoded inbound data: a single frame or a batch array. -/
inductive RpcData where
  | single (f : InFrame)
  | arr (fs : List InFrame)

/-- `process_received(encoded_data)` after JSON decoding: an array is
dispatched element by element, anything else as a single frame. -/
def process_received (s : RPCState) (d : RpcData) : RPCState × Effects :=
  match d with
  | .single f => validate_and_dispatch s f
  | .arr fs => processList s fs

/-- `_create_uid()`: returns the current counter rendered as a string and
increments the counter. -/
def create_uid (s : RPCState) : String × RPCState :=
  (natToStr s.id_counter, { s with id_counter := s.id_counter + 1 })

/-- The value returned to the caller of `call_method` and friends: a promise
that is pending under a correlation id, or one already rejected with an
`Error(msg)`. -/
inductive CallRet where
  | pendingPromise (uid : String)
  | rejectedError (msg : String)

/-- Result of one outbound call: new state, frames sent, and the returned
promise. -/
structure CallResult where
  state : RPCState
  sends : List OutFrame
  ret : CallRet

/-- `call_method(method_name, ...args)`: a uid is created first (so the
counter advances even when no transport is bound); with a transport the frame
is sent and a pending callback is registered under the uid; without one the
returned promise is already rejected. -/
def call_method (s : RPCState) (method_name : String) (args : List JVal) :
    CallResult :=
  let u := create_uid s
  let req := build_request method_name (some u.1) none args
  if u.2.transport then
    { state := { u.2 with
        pending_callbacks := setKey u.2.pending_callbacks u.1 (.simple u.1) }
      sends := [.request req]
      ret := .pendingPromise u.1 }
  else
    { state := u.2, sends := [], ret := .rejectedError "No Transport Initialized" }

/-- `call_method_with_kwargs(method_name, kwargs)`: like `call_method` but the
params are the single `kwargs` value (`none` models passing JS `null`). -/
def call_method_with_kwargs (s : RPCState) (method_name : String)
    (kwargs : Option JVal) : CallResult :=
  let u := create_uid s
  let req := build_request method_name (some u.1) kwargs []
  if u.2.transport then
    { state := { u.2 with
        pending_callbacks := setKey u.2.pending_callbacks u.1 (.simple u.1) }
      sends := [.request req]
      ret := .pendingPromise u.1 }
  else
    { state := u.2, sends := [], ret := .rejectedError "No Transport Initialized" }

/-- `notify(method_name, ...args)`: builds a request with `uid = null` and
sends it when a transport is bound; no uid is consumed, no pending callback is
registered, nothing is returned. -/
def notify (s : RPCState) (method_name : String) (args : List JVal) :
    List OutFrame :=
  if s.transport then [.request (build_request method_name none none args)] else []

/-- One element of the argument to `send_batch_request`: an object with a
`method`, an optional `type` field (the entry is correlated only when that
field equals "request"), and an optional `params` field. -/
structure BatchItem where
  method : String
  type : Option JVal
  params : Option JVal

/-- The per-item params split of `send_batch_request`: in JS an array is also
`instanceof Object`, so both objects and arrays travel as `kwargs` and the
`else` branch receives only primitives, whose later spread `...args` would
throw; that dead branch is modelled as an empty spread. -/
def batchParams (p : Option JVal) : Option JVal × List JVal :=
  match p with
  | some (.jobj kvs) => (some (.jobj kvs), [])
  | some (.jarr xs) => (some (.jarr xs), [])
  | some _ => (none, [])
  | none => (none, [])

/-- The `requests.forEach` loop of `send_batch_request`: each item of type
"request" consumes a uid and registers a `batchItem` pending callback
remembering its method and original index; every item contributes one entry to
the batch frame.  Returns the final state, the batch entries, and the uids of
the per-item promises in promise order. -/
def batchLoop (s : RPCState) (items : List BatchItem) (idx : Nat) :
    RPCState × List RequestFrame × List String :=
  match items with
  | [] => (s, [], [])
  | item :: rest =>
      let kw := batchParams item.params
      if looseEqStr item.type "request" then
        let u := create_uid s
        let s2 := { u.2 with
          pending_callbacks :=
            setKey u.2.pending_callbacks u.1 (.batchItem item.method idx) }
        let r := batchLoop s2 rest (idx + 1)
        (r.1, build_request item.method (some u.1) kw.1 kw.2 :: r.2.1, u.1 :: r.2.2)
      else
        let r := batchLoop s rest (idx + 1)
        (r.1, build_request item.method none kw.1 kw.2 :: r.2.1, r.2.2)

/-- Result of `send_batch_request`: either the aggregate promise is already
rejected for lack of a transport, or one batch frame was sent and the
aggregate is a `Promise.all` over the per-item promises whose uids are listed
in promise order. -/
inductive BatchRet where
  | rejectedError (msg : String)
  | aggregate (uids : List String)

/-- `send_batch_request(requests)`: with no transport the aggregate rejects
immediately and nothing else happens; otherwise the loop above runs, the whole
batch is sent as a single frame, and `Promise.all` of the per-item promises is
returned. -/
def send_batch_request (s : RPCState) (items : List BatchItem) :
    RPCState × List OutFrame × BatchRet :=
  if s.transport = false then
    (s, [], .rejectedError "No Transport Initialized")
  else
    let r := batchLoop s items 0
    (r.1, [.batch r.2.1], .aggregate r.2.2)

/-- First settlement recorded for a given promise uid. -/
def findSettle (u : String) : List Settlement → Option Outcome
  | [] => none
  | s :: rest => if s.uid = u then some s.outcome else findSettle u rest

/-- The payload of the first rejection, in settlement (delivery) order, among
the promises with the given uids. -/
def firstRejection (uids : List String) : List Settlement → Option JVal
  | [] => none
  | s :: rest =>
      match s.outcome with
      | .rejected v =>
          if uids.contains s.uid then some v else firstRejection uids rest
      | .resolved _ => firstRejection uids rest

/-- The resolution values of all the given promises, in promise order, when
every one of them has resolved. -/
def allResolved (uids : List String) (ss : List Settlement) :
    Option (List JVal) :=
  match uids with
  | [] => some []
  | u :: us =>
      match findSettle u ss with
      | some (.resolved v) => (allResolved us ss).map (fun vs => v :: vs)
      | _ => none

/-- State of a `Promise.all` aggregate. -/
inductive AggState where
  | pending
  | resolvedWith (vs : List JVal)
  | rejectedWith (v : JVal)

/-- `Promise.all` semantics over a record of settlements: the aggregate is
rejected with the payload of the first constituent rejection in delivery
order; failing that it is resolved with the list of values once every
constituent has resolved; otherwise it is still pending. -/
def promiseAll (uids : List String) (ss : List Settlement) : AggState :=
  match firstRejection uids ss with
  | some v => .rejectedWith v
  | none =>
      match allResolved uids ss with
      | some vs => .resolvedWith vs
      | none => .pending

/-- `register_method(method_name, method)`: overwrites any prior binding. -/
def register_method (s : RPCState) (method_name : String) (impl : MethodImpl) :
    RPCState :=
  { s with methods := setKey s.methods method_name impl }

/-- One outbound call in a mixed sequence of `call_method` and
`call_method_with_kwargs` invocations. -/
inductive CallSpec where
  | pos (name : String) (args : List JVal)
  | kw (name : String) (kwargs : Option JVal)

/-- Run one call of either flavour. -/
def doCall (s : RPCState) : CallSpec → CallResult
  | .pos name args => call_method s name args
  | .kw name kwargs => call_method_with_kwargs s name kwargs

/-- Run a sequence of calls, collecting the correlation ids assigned to the
returned (pending) promises in order. -/
def runCalls : RPCState → List CallSpec → RPCState × List String
  | s, [] => (s, [])
  | s, c :: cs =>
      let r := doCall s c
      let rest := runCalls r.state cs
      (rest.1,
       (match r.ret with
        | .pendingPromise u => [u]
        | .rejectedError _ => []) ++ rest.2)

/-! ### Arithmetic facts about the decimal rendering used by `_create_uid` -/

theorem digitChar_toNat (d : Nat) (h : d < 10) : (digitChar d).toNat = 48 + d := by
  interval_cases d <;> decide

theorem valRev_digitsRevAux (fuel : Nat) :
    ∀ n, n ≤ fuel → valRev (digitsRevAux fuel n) = n := by
  induction fuel with
  | zero => intro n h; interval_cases n; simp [digitsRevAux, valRev]
  | succ fuel ih =>
    intro n h
    by_cases hn : n = 0
    · simp [digitsRevAux, hn, valRev]
    · have hlt : n / 10 ≤ fuel := by
        have := Nat.div_lt_self (Nat.pos_of_ne_zero hn) (by decide : 1 < 10)
        omega
      simp only [digitsRevAux, hn, if_false, valRev, ih _ hlt]
      omega

theorem digitsRevAux_lt (fuel : Nat) : ∀ n d, d ∈ digitsRevAux fuel n → d < 10 := by
  induction fuel with
  | zero => intro n d h; simp [digitsRevAux] at h
  | succ fuel ih =>
    intro n d h
    by_cases hn : n = 0
    · simp [digitsRevAux, hn] at h
    · simp only [digitsRevAux, hn, if_false, List.mem_cons] at h
      rcases h with h | h
      · subst h; exact Nat.mod_lt _ (by decide)
      · exact ih _ _ h

theorem foldl_digits (ds : List Nat) (hds : ∀ d ∈ ds, d < 10) (acc : Nat) :
    List.foldl (fun a c => a * 10 + (c.toNat - 48)) acc (ds.reverse.map digitChar)
      = acc * 10 ^ ds.length + valRev ds := by
  induction ds generalizing acc with
  | nil => simp [valRev]
  | cons d ds ih =>
    have hd : d < 10 := hds d (List.mem_cons_self d ds)
    have hds' : ∀ x ∈ ds, x < 10 := fun x hx => hds x (List.mem_cons_of_mem d hx)
    simp only [List.reverse_cons, List.map_append, List.foldl_append, ih hds' acc,
      List.map_cons, List.map_nil, List.foldl_cons, List.foldl_nil,
      digitChar_toNat d hd, valRev, List.length_cons]
    ring_nf
    omega

/-- Reading the decimal rendering of a number back as an integer recovers the
number: the rendering of `_create_uid` is faithful. -/
theorem strToNat_natToStr (n : Nat) : strToNat (natToStr n) = n := by
  by_cases hn : n = 0
  · subst hn; decide
  · have h1 : valRev (digitsRevAux n n) = n := valRev_digitsRevAux n n le_rfl
    have h2 : ∀ d ∈ digitsRevAux n n, d < 10 := digitsRevAux_lt n n
    simp only [strToNat, natToStr, hn, if_false]
    show List.foldl _ 0 ((digitsRevAux n n).reverse.map digitChar) = n
    rw [foldl_digits _ h2 0]
    simpa using h1

/-! ### The identifier stream of a sequence of calls -/

theorem doCall_ret (s : RPCState) (c : CallSpec) (ht : s.transport = true) :
    (doCall s c).ret = .pendingPromise (natToStr s.id_counter) := by
  cases c <;> simp [doCall, call_method, call_method_with_kwargs, create_uid, ht]

theorem doCall_counter (s : RPCState) (c : CallSpec) :
    (doCall s c).state.id_counter = s.id_counter + 1 := by
  cases c <;>
    simp only [doCall, call_method, call_method_with_kwargs, create_uid] <;>
    split <;> rfl

theorem doCall_transport (s : RPCState) (c : CallSpec) :
    (doCall s c).state.transport = s.transport := by
  cases c <;>
    simp only [doCall, call_method, call_method_with_kwargs, create_uid] <;>
    split <;> rfl

theorem runCalls_uids (cs : List CallSpec) :
    ∀ s : RPCState, s.transport = true →
      (runCalls s cs).2 = (List.range' s.id_counter cs.length).map natToStr := by
  induction cs with
  | nil => intro s _; simp [runCalls]
  | cons c cs ih =>
    intro s ht
    have ht' : (doCall s c).state.transport = true := by
      rw [doCall_transport]; exact ht
    simp only [runCalls, ih (doCall s c).state ht', doCall_ret s c ht,
      doCall_counter, List.length_cons, List.range'_succ, List.map_cons,
      List.singleton_append]

/-- C5 (confirmed): for every non-empty sequence of `call_method` and
`call_method_with_kwargs` invocations on one engine instance, the identifiers
assigned to the returned promises start at the string "0", strictly increase
when rendered as integers, and are pairwise distinct. -/
theorem claim_C5_ids (cs : List CallSpec) (hne : cs ≠ []) :
    (runCalls (initState true) cs).2.head? = some "0"
    ∧ List.Pairwise (fun a b => strToNat a < strToNat b)
        (runCalls (initState true) cs).2
    ∧ List.Pairwise (fun a b => a ≠ b) (runCalls (initState true) cs).2 := by
  have h0 : (initState true).transport = true := rfl
  have hc : (initState true).id_counter = 0 := rfl
  rw [runCalls_uids cs (initState true) h0, hc]
  have hlt : List.Pairwise (fun a b => strToNat a < strToNat b)
      ((List.range' 0 cs.length).map natToStr) := by
    rw [List.pairwise_map]
    exact (List.pairwise_lt_range' 0 cs.length).imp
      (fun {a b} h => by rwa [strToNat_natToStr, strToNat_natToStr])
  refine ⟨?_, hlt, hlt.imp (fun {a b} h he => by subst he; exact lt_irrefl _ h)⟩
  obtain ⟨c, cs', rfl⟩ := List.exists_cons_of_ne_nil hne
  simp [List.range'_succ]
  rfl

/-- Witness for C5: a concrete run of three calls, one of each flavour. -/
theorem claim_C5_ids_witness :
    (runCalls (initState true)
        [CallSpec.pos "a" [], CallSpec.kw "b" (some (.jobj [])),
         CallSpec.pos "c" [.jnum 1]]).2.head? = some "0"
    ∧ List.Pairwise (fun a b => strToNat a < strToNat b)
        (runCalls (initState true)
          [CallSpec.pos "a" [], CallSpec.kw "b" (some (.jobj [])),
           CallSpec.pos "c" [.jnum 1]]).2
    ∧ List.Pairwise (fun a b => a ≠ b)
        (runCalls (initState true)
          [CallSpec.pos "a" [], CallSpec.kw "b" (some (.jobj [])),
           CallSpec.pos "c" [.jnum 1]]).2 :=
  claim_C5_ids _ (by simp)

/-- C1 (counterexample): a response frame carrying a non-null id, a non-null
error and a non-null result takes the result path, resolving the pending
completion with the result, not the error path the claim demands. -/
theorem claim_C1_counterexample :
    (validate_and_dispatch
        { id_counter := 1, methods := [],
          pending_callbacks := [("0", Completion.simple "0")], transport := true }
        { jsonrpc := some (.jstr "2.0"), result := some (.jnum 5),
          error := some (.jstr "E"), method := none, id := some (.jstr "0"),
          params := none }).2.settlements
      = [⟨"0", Outcome.resolved (.jnum 5)⟩]
    ∧ (validate_and_dispatch
        { id_counter := 1, methods := [],
          pending_callbacks := [("0", Completion.simple "0")], transport := true }
        { jsonrpc := some (.jstr "2.0"), result := some (.jnum 5),
          error := some (.jstr "E"), method := none, id := some (.jstr "0"),
          params := none }).2.settlements
      ≠ [⟨"0", Outcome.rejected (.jstr "E")⟩] := by
  refine ⟨rfl, fun h => ?_⟩
  have h' : [Settlement.mk "0" (Outcome.resolved (.jnum 5))]
      = [Settlement.mk "0" (Outcome.rejected (.jstr "E"))] := h
  simp [Settlement.mk.injEq] at h'

/-- C1 (amended): for a response frame with a non-null id and a non-null
error and a pending completion for that id, the error path (rejection with
the error) is taken exactly when the result field is absent or null; when the
result field is also non-null, the result path takes precedence and resolves
the completion with the result, because the code checks the result path
first. -/
theorem claim_C1_precedence (s : RPCState) (f : InFrame) (c : Completion)
    (e : JVal)
    (htag : looseEqStr f.jsonrpc "2.0" = true)
    (hid : optNonNull f.id = true)
    (herr : f.error = some e) (hne : e ≠ JVal.jnull)
    (hc : getKey s.pending_callbacks (jvalKeyOpt f.id) = some c) :
    (optNonNull f.result = false →
      validate_and_dispatch s f
        = ({ s with pending_callbacks :=
              delKey s.pending_callbacks (jvalKeyOpt f.id) },
           { sends := [], logs := [],
             settlements :=
               [⟨jvalKeyOpt f.id, invokeCompletion c .jnull (some e)⟩] }))
    ∧ (optNonNull f.result = true →
      validate_and_dispatch s f
        = ({ s with pending_callbacks :=
              delKey s.pending_callbacks (jvalKeyOpt f.id) },
           { sends := [], logs := [],
             settlements :=
               [⟨jvalKeyOpt f.id,
                 invokeCompletion c (f.result.getD .jnull) none⟩] })) := by
  have hsome : f.error.isSome = true := by rw [herr]; rfl
  have henn : optNonNull (some e) = true := by
    cases e with
    | jnull => exact absurd rfl hne
    | _ => rfl
  constructor
  · intro hres
    simp [validate_and_dispatch, htag, hsome, handle_response, hres, henn, hc,
      herr]
  · intro hres
    simp [validate_and_dispatch, htag, hsome, handle_response, hres, hid, hc]

/-- Witness for C1 (amended) at a concrete error-only response frame. -/
theorem claim_C1_precedence_witness :
    validate_and_dispatch
        { id_counter := 1, methods := [],
          pending_callbacks := [("0", Completion.simple "0")], transport := true }
        { jsonrpc := some (.jstr "2.0"), result := none,
          error := some (.jstr "E"), method := none, id := some (.jstr "0"),
          params := none }
      = ({ id_counter := 1, methods := [], pending_callbacks := [],
           transport := true },
         { sends := [], logs := [],
           settlements := [⟨"0", Outcome.rejected (.jstr "E")⟩] }) :=
  (claim_C1_precedence
    { id_counter := 1, methods := [],
      pending_callbacks := [("0", Completion.simple "0")], transport := true }
    { jsonrpc := some (.jstr "2.0"), result := none,
      error := some (.jstr "E"), method := none, id := some (.jstr "0"),
      params := none }
    (Completion.simple "0") (.jstr "E") rfl rfl rfl (by simp) rfl).1 rfl

/-- C9 (confirmed): a success response whose result field is present but
null is logged as an invalid response; no pending callback is invoked, no
entry is removed, and nothing is sent. -/
theorem claim_C9_null_result (s : RPCState) (f : InFrame)
    (htag : looseEqStr f.jsonrpc "2.0" = true)
    (hres : f.result = some JVal.jnull)
    (herr : optNonNull f.error = false) :
    validate_and_dispatch s f
      = (s, { sends := [], logs := [.invalidResponse], settlements := [] }) := by
  have hsome : f.result.isSome = true := by rw [hres]; rfl
  have hnn : optNonNull f.result = false := by rw [hres]; rfl
  simp [validate_and_dispatch, htag, hsome, handle_response, hnn, herr]

/-- Witness for C9: a null result for an id with a live pending completion
leaves the engine state (including that completion) untouched. -/
theorem claim_C9_null_result_witness :
    validate_and_dispatch
        { id_counter := 1, methods := [],
          pending_callbacks := [("0", Completion.simple "0")], transport := true }
        { jsonrpc := some (.jstr "2.0"), result := some .jnull,
          error := none, method := none, id := some (.jstr "0"), params := none }
      = ({ id_counter := 1, methods := [],
           pending_callbacks := [("0", Completion.simple "0")], transport := true },
         { sends := [], logs := [.invalidResponse], settlements := [] }) :=
  claim_C9_null_result
    { id_counter := 1, methods := [],
      pending_callbacks := [("0", Completion.simple "0")], transport := true }
    { jsonrpc := some (.jstr "2.0"), result := some .jnull,
      error := none, method := none, id := some (.jstr "0"), params := none }
    rfl rfl rfl

/-- C4 (counterexample): a response frame whose result field is present but
null, for an id that has a pending completion, does not invoke the
completion's callback (no settlement happens) and does not remove the entry
from the pending map, contradicting the claim as stated. -/
theorem claim_C4_counterexample :
    (validate_and_dispatch
        { id_counter := 1, methods := [],
          pending_callbacks := [("0", Completion.simple "0")], transport := true }
        { jsonrpc := some (.jstr "2.0"), result := some .jnull,
          error := none, method := none, id := some (.jstr "0"),
          params := none }).2.settlements = []
    ∧ (validate_and_dispatch
        { id_counter := 1, methods := [],
          pending_callbacks := [("0", Completion.simple "0")], transport := true }
        { jsonrpc := some (.jstr "2.0"), result := some .jnull,
          error := none, method := none, id := some (.jstr "0"),
          params := none }).1.pending_callbacks
      = [("0", Completion.simple "0")] := ⟨rfl, rfl⟩

/-- C4 (amended): for a response frame with a non-null result and non-null id,
or a non-null error, whose identifier has a pending completion, the engine
invokes that completion's callback exactly once and removes the entry; for a
success response whose result is null the frame is logged as invalid and the
pending entry is untouched (see C9); when no pending completion exists the
frame is only logged, with no exception, no outbound traffic and no state
change. -/
theorem claim_C4_correlation (s : RPCState) (f : InFrame)
    (htag : looseEqStr f.jsonrpc "2.0" = true) :
    (∀ v c, f.result = some v → v ≠ JVal.jnull → optNonNull f.id = true →
      getKey s.pending_callbacks (jvalKeyOpt f.id) = some c →
      validate_and_dispatch s f
        = ({ s with pending_callbacks :=
              delKey s.pending_callbacks (jvalKeyOpt f.id) },
           { sends := [], logs := [],
             settlements := [⟨jvalKeyOpt f.id, invokeCompletion c v none⟩] }))
    ∧ (∀ e c, optNonNull f.result = false → f.error = some e →
      e ≠ JVal.jnull →
      getKey s.pending_callbacks (jvalKeyOpt f.id) = some c →
      validate_and_dispatch s f
        = ({ s with pending_callbacks :=
              delKey s.pending_callbacks (jvalKeyOpt f.id) },
           { sends := [], logs := [],
             settlements :=
               [⟨jvalKeyOpt f.id, invokeCompletion c .jnull (some e)⟩] }))
    ∧ (optNonNull f.result = true → optNonNull f.id = true →
      getKey s.pending_callbacks (jvalKeyOpt f.id) = none →
      validate_and_dispatch s f
        = (s, { sends := [], logs := [.noRegisteredCall], settlements := [] }))
    ∧ (∀ e, optNonNull f.result = false → f.error = some e → e ≠ JVal.jnull →
      getKey s.pending_callbacks (jvalKeyOpt f.id) = none →
      validate_and_dispatch s f
        = (s, { sends := [], logs := [.errorReceived], settlements := [] })) := by
  refine ⟨?_, ?_, ?_, ?_⟩
  · intro v c hres hv hid hc
    have hsome : f.result.isSome = true := by rw [hres]; rfl
    have hnn : optNonNull (some v) = true := by
      cases v with
      | jnull => exact absurd rfl hv
      | _ => rfl
    simp [validate_and_dispatch, htag, hsome, handle_response, hnn, hid, hc,
      hres]
  · intro e c hres herr he hc
    have hsome : f.error.isSome = true := by rw [herr]; rfl
    have henn : optNonNull (some e) = true := by
      cases e with
      | jnull => exact absurd rfl he
      | _ => rfl
    simp [validate_and_dispatch, htag, hsome, handle_response, hres, henn, hc,
      herr]
  · intro hres hid hc
    have hsome : f.result.isSome = true := by
      cases hh : f.result with
      | none => rw [hh] at hres; exact absurd hres (by simp [optNonNull])
      | some v => rfl
    simp [validate_and_dispatch, htag, hsome, handle_response, hres, hid, hc]
  · intro e hres herr he hc
    have hsome : f.error.isSome = true := by rw [herr]; rfl
    have henn : optNonNull (some e) = true := by
      cases e with
      | jnull => exact absurd rfl he
      | _ => rfl
    simp [validate_and_dispatch, htag, hsome, handle_response, hres, henn, hc,
      herr]

/-- Witness for C4 (amended): a concrete matched success response and a
concrete orphaned success response. -/
theorem claim_C4_correlation_witness :
    validate_and_dispatch
        { id_counter := 1, methods := [],
          pending_callbacks := [("0", Completion.simple "0")], transport := true }
        { jsonrpc := some (.jstr "2.0"), result := some (.jnum 7),
          error := none, method := none, id := some (.jstr "0"), params := none }
      = ({ id_counter := 1, methods := [], pending_callbacks := [],
           transport := true },
         { sends := [], logs := [],
           settlements := [⟨"0", Outcome.resolved (.jnum 7)⟩] })
    ∧ validate_and_dispatch
        { id_counter := 1, methods := [], pending_callbacks := [],
          transport := true }
        { jsonrpc := some (.jstr "2.0"), result := some (.jnum 7),
          error := none, method := none, id := some (.jstr "9"), params := none }
      = ({ id_counter := 1, methods := [], pending_callbacks := [],
           transport := true },
         { sends := [], logs := [.noRegisteredCall], settlements := [] }) :=
  ⟨(claim_C4_correlation
      { id_counter := 1, methods := [],
        pending_callbacks := [("0", Completion.simple "0")], transport := true }
      { jsonrpc := some (.jstr "2.0"), result := some (.jnum 7),
        error := none, method := none, id := some (.jstr "0"), params := none }
      rfl).1 (.jnum 7) (Completion.simple "0") rfl (by simp) rfl rfl,
   (claim_C4_correlation
      { id_counter := 1, methods := [], pending_callbacks := [],
        transport := true }
      { jsonrpc := some (.jstr "2.0"), result := some (.jnum 7),
        error := none, method := none, id := some (.jstr "9"), params := none }
      rfl).2.2.1 rfl rfl rfl⟩

/-- C8 (confirmed): an inbound request whose method name has no registered
dispatch entry is only logged, even when it carries an id: no frame is sent,
nothing settles, and the engine state is unchanged. -/
theorem claim_C8_unregistered (s : RPCState) (f : InFrame)
    (htag : looseEqStr f.jsonrpc "2.0" = true)
    (hres : f.result = none) (herr : f.error = none)
    (hm : f.method.isSome = true)
    (hlook : getKey s.methods (jvalKeyOpt f.method) = none) :
    validate_and_dispatch s f
      = (s, { sends := [], logs := [.invalidMethod (jvalKeyOpt f.method)],
              settlements := [] }) := by
  simp [validate_and_dispatch, htag, hres, herr, hm, handle_request, hlook]

/-- Witness for C8: an unregistered method with an id present produces no
outbound frame and changes nothing. -/
theorem claim_C8_unregistered_witness :
    validate_and_dispatch (initState true)
        { jsonrpc := some (.jstr "2.0"), result := none, error := none,
          method := some (.jstr "nope"), id := some (.jstr "3"), params := none }
      = (initState true,
         { sends := [], logs := [.invalidMethod "nope"], settlements := [] }) :=
  claim_C8_unregistered (initState true)
    { jsonrpc := some (.jstr "2.0"), result := none, error := none,
      method := some (.jstr "nope"), id := some (.jstr "3"), params := none }
    rfl rfl rfl rfl rfl

/-- C7 (confirmed): an inbound request with an id dispatching to a registered
callable that throws produces exactly one outbound frame, an error frame with
code -31000 whose message is the exception's message when present and
non-empty and "Server Error" otherwise; no result frame is sent and no state
changes. -/
theorem claim_C7_thrown (s : RPCState) (f : InFrame) (impl : MethodImpl)
    (ex : JSException) (idv : JVal)
    (htag : looseEqStr f.jsonrpc "2.0" = true)
    (hres : f.result = none) (herr : f.error = none)
    (hm : f.method.isSome = true)
    (hlook : getKey s.methods (jvalKeyOpt f.method) = some impl)
    (hid : f.id = some idv)
    (hcall : dispatchCall impl f.params = some (.error ex))
    (htr : s.transport = true) :
    validate_and_dispatch s f
      = (s, { sends := [.error (serverMsg ex) (-31000) idv]
              logs := [.requestError (-31000) (serverMsg ex)]
              settlements := [] }) := by
  simp [validate_and_dispatch, htag, hres, herr, hm, handle_request, hlook,
    hcall, build_error, hid, htr]

/-- Witness for C7: a method registered under "kaboom" that throws with
message "boom", called with an id, yields one -31000 error frame carrying
"boom". -/
theorem claim_C7_thrown_witness :
    validate_and_dispatch
        (register_method (initState true) "kaboom"
          (fun _ => .error ⟨some "boom"⟩))
        { jsonrpc := some (.jstr "2.0"), result := none, error := none,
          method := some (.jstr "kaboom"), id := some (.jstr "7"),
          params := none }
      = (register_method (initState true) "kaboom"
          (fun _ => .error ⟨some "boom"⟩),
         { sends := [.error "boom" (-31000) (.jstr "7")]
           logs := [.requestError (-31000) "boom"]
           settlements := [] }) :=
  claim_C7_thrown
    (register_method (initState true) "kaboom"
      (fun _ => .error ⟨some "boom"⟩))
    { jsonrpc := some (.jstr "2.0"), result := none, error := none,
      method := some (.jstr "kaboom"), id := some (.jstr "7"), params := none }
    (fun _ => .error ⟨some "boom"⟩) ⟨some "boom"⟩ (.jstr "7")
    rfl rfl rfl rfl rfl rfl rfl rfl

/-- C2 (counterexample): an inbound notification (no id) for a registered
method whose params have an invalid shape causes a dispatch-side error frame
to be sent back, with id null, contradicting the claim that nothing is sent
in reply to a frame without an id. -/
theorem claim_C2_counterexample :
    (validate_and_dispatch
        (register_method (initState true) "m" (fun _ => .ok .jnull))
        { jsonrpc := some (.jstr "2.0"), result := none, error := none,
          method := some (.jstr "m"), id := none,
          params := some (.jnum 5) }).2.sends
      = [.error "Invalid Parameters" (-32602) .jnull]
    ∧ (validate_and_dispatch
        (register_method (initState true) "m" (fun _ => .ok .jnull))
        { jsonrpc := some (.jstr "2.0"), result := none, error := none,
          method := some (.jstr "m"), id := none,
          params := some (.jnum 5) }).2.sends ≠ [] := by
  refine ⟨rfl, fun h => ?_⟩
  have h' : [OutFrame.error "Invalid Parameters" (-32602) .jnull]
      = ([] : List OutFrame) := h
  simp at h'

/-- C2 (amended): with a transport bound and the method registered, a
dispatch-side error frame (InvalidParams -32602 or ServerError -31000) is
sent back whether or not the inbound frame carried an id, with the error
frame's id copied from the request when present and null otherwise; only the
success result frame is conditioned on the presence of an id (absent id means
no reply for a successful dispatch). -/
theorem claim_C2_error_frames (s : RPCState) (f : InFrame) (impl : MethodImpl)
    (htag : looseEqStr f.jsonrpc "2.0" = true)
    (hres : f.result = none) (herr : f.error = none)
    (hm : f.method.isSome = true)
    (hlook : getKey s.methods (jvalKeyOpt f.method) = some impl)
    (htr : s.transport = true) :
    (dispatchCall impl f.params = none →
      (validate_and_dispatch s f).2.sends
        = [.error "Invalid Parameters" (-32602) (f.id.getD .jnull)])
    ∧ (∀ ex, dispatchCall impl f.params = some (.error ex) →
      (validate_and_dispatch s f).2.sends
        = [.error (serverMsg ex) (-31000) (f.id.getD .jnull)])
    ∧ (∀ ret, dispatchCall impl f.params = some (.ok ret) →
      (validate_and_dispatch s f).2.sends
        = match f.id with
          | some idv => [.result ret idv]
          | none => []) := by
  refine ⟨?_, ?_, ?_⟩
  · intro hcall
    simp [validate_and_dispatch, htag, hres, herr, hm, handle_request, hlook,
      hcall, build_error, htr]
  · intro ex hcall
    simp [validate_and_dispatch, htag, hres, herr, hm, handle_request, hlook,
      hcall, build_error, htr]
  · intro ret hcall
    cases hid : f.id <;>
      simp [validate_and_dispatch, htag, hres, herr, hm, handle_request, hlook,
        hcall, htr, hid]

/-- Witness for C2 (amended): invalid params on a notification still produce
an InvalidParams error frame with a null id. -/
theorem claim_C2_error_frames_witness :
    (validate_and_dispatch
        (register_method (initState true) "m" (fun _ => .ok .jnull))
        { jsonrpc := some (.jstr "2.0"), result := none, error := none,
          method := some (.jstr "m"), id := none,
          params := some (.jnum 5) }).2.sends
      = [.error "Invalid Parameters" (-32602) .jnull] :=
  (claim_C2_error_frames
    (register_method (initState true) "m" (fun _ => .ok .jnull))
    { jsonrpc := some (.jstr "2.0"), result := none, error := none,
      method := some (.jstr "m"), id := none, params := some (.jnum 5) }
    (fun _ => .ok .jnull) rfl rfl rfl rfl rfl rfl).1 rfl

/-- C10 (confirmed): calling either call flavour with no transport bound
returns a future already rejected with "No Transport Initialized", sends
nothing and registers no pending completion, yet the id counter still
advances because the uid is created before the transport check. -/
theorem claim_C10_no_transport (s : RPCState) (name : String)
    (args : List JVal) (kwargs : Option JVal) (htr : s.transport = false) :
    call_method s name args
      = { state := { s with id_counter := s.id_counter + 1 }, sends := []
          ret := .rejectedError "No Transport Initialized" }
    ∧ call_method_with_kwargs s name kwargs
      = { state := { s with id_counter := s.id_counter + 1 }, sends := []
          ret := .rejectedError "No Transport Initialized" } := by
  constructor <;> simp [call_method, call_method_with_kwargs, create_uid, htr]

/-- Witness for C10: both call flavours on a fresh transportless engine. -/
theorem claim_C10_no_transport_witness :
    call_method (initState false) "m" []
      = { state := { id_counter := 1, methods := [], pending_callbacks := []
                     transport := false }
          sends := [], ret := .rejectedError "No Transport Initialized" }
    ∧ call_method_with_kwargs (initState false) "m" (some (.jobj []))
      = { state := { id_counter := 1, methods := [], pending_callbacks := []
                     transport := false }
          sends := [], ret := .rejectedError "No Transport Initialized" } :=
  claim_C10_no_transport (initState false) "m" [] (some (.jobj [])) rfl

/-- C6 (counterexample): calling `call_method_with_kwargs` with an explicitly
supplied empty mapping produces a request frame that does contain a `params`
field holding an empty collection, contradicting the claim that an encoded
frame never contains params with an empty collection value. -/
theorem claim_C6_counterexample :
    (call_method_with_kwargs (initState true) "m" (some (.jobj []))).sends
      = [.request { method := "m", id := some "0", params := some (.jobj []) }]
    ∧ (build_request "m" (some "0") (some (.jobj [])) []).params ≠ none := by
  refine ⟨rfl, fun h => ?_⟩
  have h' : (some (JVal.jobj []) : Option JVal) = none := h
  simp at h'

/-- C6 (amended): a request frame omits the params field whenever kwargs is
null and no positional arguments are supplied, and params is never the value
null; an explicitly supplied empty mapping is however passed through as an
empty params collection.  The id field is omitted for notifications. -/
theorem claim_C6_field_omission (m : String) (uid : Option String)
    (kwargs : Option JVal) (args : List JVal) (s : RPCState) :
    (build_request m uid none []).params = none
    ∧ (kwargs ≠ some JVal.jnull →
        (build_request m uid kwargs args).params ≠ some JVal.jnull)
    ∧ (∀ r, OutFrame.request r ∈ notify s m args → r.id = none)
    ∧ (build_request m uid (some (.jobj [])) args).params = some (.jobj []) := by
  refine ⟨rfl, ?_, ?_, rfl⟩
  · intro hk
    cases kwargs with
    | none =>
        simp only [build_request]
        split <;> simp
    | some k =>
        simpa [build_request] using fun hkn => hk (by rw [hkn])
  · intro r hr
    unfold notify at hr
    cases htr : s.transport <;> rw [htr] at hr
    · simp at hr
    · simp at hr
      rw [hr]
      rfl

/-- Witness for C6 (amended): concrete frames for a no-argument call and a
notification. -/
theorem claim_C6_field_omission_witness :
    (build_request "m" (some "0") none []).params = none
    ∧ ((some (.jarr [])) ≠ some JVal.jnull →
        (build_request "m" (some "0") (some (.jarr [])) []).params
          ≠ some JVal.jnull)
    ∧ (∀ r, OutFrame.request r ∈ notify (initState true) "m" [] → r.id = none)
    ∧ (build_request "m" (some "0") (some (.jobj [])) []).params
        = some (.jobj []) :=
  claim_C6_field_omission "m" (some "0") (some (.jarr [])) [] (initState true)

/-- The three-entry batch of the claim: a correlated request "a", a
notification "b", and a correlated request "c". -/
def batchABC : List BatchItem :=
  [{ method := "a", type := some (.jstr "request"), params := none },
   { method := "b", type := some (.jstr "notification"), params := none },
   { method := "c", type := some (.jstr "request"), params := none }]

/-- A success response frame for a wire id. -/
def respOk (uid : String) (v : JVal) : InFrame :=
  { jsonrpc := some (.jstr "2.0"), result := some v, error := none,
    method := none, id := some (.jstr uid), params := none }

/-- An error response frame for a wire id. -/
def respErr (uid : String) (e : JVal) : InFrame :=
  { jsonrpc := some (.jstr "2.0"), result := none, error := some e,
    method := none, id := some (.jstr uid), params := none }

/-- C3 (counterexample): in the claimed batch, when the responses to both
correlated items carry errors and item 0's error response is delivered first,
the aggregate rejects with item 0's payload (method "a", index 0), not with
the item-2 payload the claim demands irrespective of id-0's outcome. -/
theorem claim_C3_counterexample :
    promiseAll ["0", "1"]
      (processList (send_batch_request (initState true) batchABC).1
        [respErr "0" (.jstr "E0"), respErr "1" (.jstr "E2")]).2.settlements
      = .rejectedWith
          (.jobj [("method", .jstr "a"), ("index", .jnum 0),
                  ("error", .jstr "E0")])
    ∧ promiseAll ["0", "1"]
      (processList (send_batch_request (initState true) batchABC).1
        [respErr "0" (.jstr "E0"), respErr "1" (.jstr "E2")]).2.settlements
      ≠ .rejectedWith
          (.jobj [("method", .jstr "c"), ("index", .jnum 2),
                  ("error", .jstr "E2")]) := by
  refine ⟨rfl, fun h => ?_⟩
  have h' : AggState.rejectedWith
      (.jobj [("method", .jstr "a"), ("index", .jnum 0), ("error", .jstr "E0")])
      = AggState.rejectedWith
      (.jobj [("method", .jstr "c"), ("index", .jnum 2), ("error", .jstr "E2")]) := h
  simp [AggState.rejectedWith.injEq] at h'

/-- C3 (amended): for the batch [request "a", notification "b", request "c"]
the engine sends exactly one wire frame with three entries and assigns
identifiers only to entries 0 and 2; the notification registers no pending
completion; the aggregate stays pending until both correlated responses have
been delivered and then resolves, in either delivery order, with the two
per-item payloads in original item order; if the id-2 response carries an
error while id-0's response is a success or still outstanding, the aggregate
rejects with the item-2 payload (method "c", index 2, the error) in either
delivery order — but when id-0's response also carries an error and is
delivered first, the first rejection wins instead (see the counterexample). -/
theorem claim_C3_batch (v0 v2 e : JVal) (h0 : v0 ≠ JVal.jnull)
    (h2 : v2 ≠ JVal.jnull) (he : e ≠ JVal.jnull) :
    (send_batch_request (initState true) batchABC).2.1
      = [.batch [{ method := "a", id := some "0", params := none },
                 { method := "b", id := none, params := none },
                 { method := "c", id := some "1", params := none }]]
    ∧ (send_batch_request (initState true) batchABC).2.2
      = .aggregate ["0", "1"]
    ∧ (send_batch_request (initState true) batchABC).1.pending_callbacks
      = [("1", .batchItem "c" 2), ("0", .batchItem "a" 0)]
    ∧ promiseAll ["0", "1"] ([] : List Settlement) = .pending
    ∧ promiseAll ["0", "1"]
        (processList (send_batch_request (initState true) batchABC).1
          [respOk "0" v0]).2.settlements = .pending
    ∧ promiseAll ["0", "1"]
        (processList (send_batch_request (initState true) batchABC).1
          [respOk "1" v2]).2.settlements = .pending
    ∧ promiseAll ["0", "1"]
        (processList (send_batch_request (initState true) batchABC).1
          [respOk "0" v0, respOk "1" v2]).2.settlements
      = .resolvedWith
          [.jobj [("method", .jstr "a"), ("index", .jnum 0), ("result", v0)],
           .jobj [("method", .jstr "c"), ("index", .jnum 2), ("result", v2)]]
    ∧ promiseAll ["0", "1"]
        (processList (send_batch_request (initState true) batchABC).1
          [respOk "1" v2, respOk "0" v0]).2.settlements
      = .resolvedWith
          [.jobj [("method", .jstr "a"), ("index", .jnum 0), ("result", v0)],
           .jobj [("method", .jstr "c"), ("index", .jnum 2), ("result", v2)]]
    ∧ promiseAll ["0", "1"]
        (processList (send_batch_request (initState true) batchABC).1
          [respOk "0" v0, respErr "1" e]).2.settlements
      = .rejectedWith
          (.jobj [("method", .jstr "c"), ("index", .jnum 2), ("error", e)])
    ∧ promiseAll ["0", "1"]
        (processList (send_batch_request (initState true) batchABC).1
          [respErr "1" e, respOk "0" v0]).2.settlements
      = .rejectedWith
          (.jobj [("method", .jstr "c"), ("index", .jnum 2), ("error", e)])
    ∧ promiseAll ["0", "1"]
        (processList (send_batch_request (initState true) batchABC).1
          [respErr "1" e]).2.settlements
      = .rejectedWith
          (.jobj [("method", .jstr "c"), ("index", .jnum 2), ("error", e)]) := by
  refine ⟨rfl, rfl, rfl, rfl, ?_, ?_, ?_, ?_, ?_, ?_, ?_⟩
  · cases v0 <;> rfl
  · cases v2 <;> rfl
  · cases v0 <;> first
      | exact absurd rfl h0
      | (cases v2 <;> first | exact absurd rfl h2 | rfl)
  · cases v2 <;> first
      | exact absurd rfl h2
      | (cases v0 <;> first | exact absurd rfl h0 | rfl)
  · cases v0 <;> first
      | exact absurd rfl h0
      | (cases e <;> first | exact absurd rfl he | rfl)
  · cases e <;> first
      | exact absurd rfl he
      | (cases v0 <;> first | exact absurd rfl h0 | rfl)
  · cases e <;> first | exact absurd rfl he | rfl

/-- Witness for C3 (amended): the error-after-success delivery order at
concrete payloads rejects the aggregate with the item-2 payload. -/
theorem claim_C3_batch_witness :
    promiseAll ["0", "1"]
      (processList (send_batch_request (initState true) batchABC).1
        [respOk "0" (.jnum 10), respErr "1" (.jstr "E2")]).2.settlements
      = .rejectedWith
          (.jobj [("method", .jstr "c"), ("index", .jnum 2),
                  ("error", .jstr "E2")]) :=
  (claim_C3_batch (.jnum 10) (.jnum 20) (.jstr "E2") (by simp) (by simp)
    (by simp)).2.2.2.2.2.2.2.2.1
